import Mathlib

/-!
Verification of the timelock code-generation scripts.

This file is a shallow embedding of the three code-generation scripts of the
repository (`misc/gen_js_api.py`, `misc/generate_javascript.py`,
`misc/make_idl.py`).  The scripts scan Rust source lines for struct
declarations, build a registry of field lists, and render per-struct
artifacts: fixed buffer layouts, borsh schema descriptors, decode functions,
interface declarations and instruction-account descriptor lists.

Embedding conventions:
- Python strings are Lean `String`s; the handful of Python string
  primitives used by the scripts (`strip`, slicing, `split`, `startswith`,
  `endswith`, whitespace `split()`) are embedded as executable functions over
  the underlying character lists (`pyStrip`, `pyDrop`, `pyDropRight`,
  `pySplitS`, `pyStartsWith`, `pyEndsWith`, `pySplitWs`).
- A renderer lookup that returns a formatted target-language fragment is
  embedded as a small inductive carrying exactly the data interpolated into
  the fragment (field name, blob width, coercion kind), one constructor per
  `return` branch of the Python function.
- The recursive `generate_*` functions may diverge on cyclic registries, so
  they are embedded with an explicit fuel argument that is consumed only
  when descending into a nested struct; a loop body over one field list is a
  separate structural function (`generate_*_body`) taking the recursive call
  as a parameter, mirroring the Python `for` loop calling `generate_*(i[1])`.
- Python exceptions (`raise Exception`, `ValueError` from tuple unpacking,
  `IndexError` from list indexing) are embedded as `Except` error values
  carrying the message data the exception would carry.
-/

namespace TimelockGen

/-! ### Embedded Python string primitives -/

/-- Characters treated as whitespace by `str.strip` and `str.split()`. -/
def wsChar (c : Char) : Bool := c.isWhitespace

/-- `str.strip()` on a character list: drop whitespace from both ends. -/
def stripChars (l : List Char) : List Char :=
  ((l.dropWhile wsChar).reverse.dropWhile wsChar).reverse

/-- Python `s.strip()`. -/
def pyStrip (s : String) : String := ⟨stripChars s.toList⟩

/-- Python `s[n:]`. -/
def pyDrop (n : Nat) (s : String) : String := ⟨s.toList.drop n⟩

/-- Python `s[:-n]` (for `0 < n`). -/
def pyDropRight (n : Nat) (s : String) : String :=
  ⟨s.toList.take (s.toList.length - n)⟩

/-- Python `s.startswith(p)`. -/
def pyStartsWith (p s : String) : Bool := p.toList.isPrefixOf s.toList

/-- Python `s.endswith(p)`. -/
def pyEndsWith (p s : String) : Bool := p.toList.isSuffixOf s.toList

/-- Fuelled worker for Python `s.split(sep)` with a non-empty separator.
The fuel is only a structural-recursion device; `pySplit` supplies enough
fuel that the first branch is never reached. -/
def pySplitF (sep : List Char) : Nat → List Char → List (List Char)
  | 0, l => [l]
  | _ + 1, [] => [[]]
  | fuel + 1, c :: rest =>
    if !sep.isEmpty && sep.isPrefixOf (c :: rest) then
      [] :: pySplitF sep fuel ((c :: rest).drop sep.length)
    else
      match pySplitF sep fuel rest with
      | [] => [[c]]
      | h :: t => (c :: h) :: t

/-- Python `s.split(sep)` on character lists (non-empty separator). -/
def pySplit (sep l : List Char) : List (List Char) :=
  pySplitF sep (l.length + 1) l

/-- Python `s.split(sep)` on strings. -/
def pySplitS (sep s : String) : List String :=
  (pySplit sep.toList s.toList).map String.mk

/-- Worker for Python `s.split()` (no separator: split on whitespace runs,
dropping empty pieces).  `acc` is the current word, reversed. -/
def pySplitWsAux : List Char → List Char → List (List Char)
  | acc, [] => if acc.isEmpty then [] else [acc.reverse]
  | acc, c :: rest =>
    if wsChar c then
      if acc.isEmpty then pySplitWsAux [] rest
      else acc.reverse :: pySplitWsAux [] rest
    else pySplitWsAux (c :: acc) rest

/-- Python `s.split()`. -/
def pySplitWs (s : String) : List String :=
  (pySplitWsAux [] s.toList).map String.mk

/-- The Rust lifetime marker stripped by the scripts: the four characters
`<`, apostrophe, `a`, `>` (spelled via `Char.ofNat 39` to keep the
apostrophe out of the source text). -/
def lifetimeStr : String := String.mk ['<', Char.ofNat 39, 'a', '>']

/-! ### Struct registry -/

/-- A parsed field: `(element name, element type token)`. -/
abbrev Field := String × String

/-- The global `structs` dict: insertion-ordered map from struct name to its
ordered field list. -/
abbrev Registry := List (String × List Field)

/-- Membership / indexing into the registry (`structs[name]`, `t in structs`). -/
def regFind : Registry → String → Option (List Field)
  | [], _ => none
  | (k, v) :: rest, s => if k = s then some v else regFind rest s

/-- `structs[name] = []`: Python dict assignment (existing keys keep their
position, new keys are appended). -/
def regSet : Registry → String → List Field → Registry
  | [], k, v => [(k, v)]
  | (k0, v0) :: rest, k, v =>
    if k0 = k then (k0, v) :: rest else (k0, v0) :: regSet rest k v

/-- `structs[name].append(f)`.  The scripts only append to a key created by
the struct-start branch, so the missing-key case is unreachable. -/
def regAppend : Registry → String → Field → Registry
  | [], _, _ => []
  | (k0, v0) :: rest, k, f =>
    if k0 = k then (k0, v0 ++ [f]) :: rest else (k0, v0) :: regAppend rest k f

/-- A decidable-equality instance for `Except` results so concrete runs can
be settled by `decide`. -/
instance {ε α : Type} [DecidableEq ε] [DecidableEq α] :
    DecidableEq (Except ε α) := fun x y =>
  match x, y with
  | .ok a, .ok b =>
    if h : a = b then .isTrue (by rw [h]) else .isFalse (fun he => h (Except.ok.inj he))
  | .error a, .error b =>
    if h : a = b then .isTrue (by rw [h]) else .isFalse (fun he => h (Except.error.inj he))
  | .ok _, .error _ => .isFalse Except.noConfusion
  | .error _, .ok _ => .isFalse Except.noConfusion

/-! ### gen_js_api.py -/

namespace GenJsApi

/-- Result of `lookup_layout t n` in `gen_js_api.py`: the rendered fragment
is `BufferLayout.blob(width, "n"),`. -/
inductive LayoutEntry where
  | blob (width : Nat) (name : String)
deriving DecidableEq

/-- Byte width of a fixed-layout entry. -/
def LayoutEntry.width : LayoutEntry → Nat
  | .blob w _ => w

/-- Field name of a fixed-layout entry. -/
def LayoutEntry.fieldName : LayoutEntry → String
  | .blob _ n => n

/-- `lookup_layout` of `gen_js_api.py`, one branch per `if`.
`String` is a 1-byte placeholder (source TODO: String length). -/
def lookup_layout (t n : String) : Option LayoutEntry :=
  if t = "u64" then some (.blob 8 n)
  else if t = "Pubkey" then some (.blob 32 n)
  else if t = "bool" then some (.blob 1 n)
  else if t = "String" then some (.blob 1 n)
  else if t = "u32" then some (.blob 4 n)
  else none

/-- Result of `lookup_decoder t n`: the decode-function fragment for one
field of the returned object.  `pad` is the bare-space fragment returned for
`u32` (source comment: skip the padding) which contributes no field. -/
inductive DecodeEntry where
  | bn (name : String)
  | publicKey (name : String)
  | boolean (name : String)
  | str (name : String)
  | pad
deriving DecidableEq

/-- The object key a decode fragment defines (`none` for the padding
fragment, which is whitespace only). -/
def DecodeEntry.fieldName : DecodeEntry → Option String
  | .bn n => some n
  | .publicKey n => some n
  | .boolean n => some n
  | .str n => some n
  | .pad => none

/-- `lookup_decoder` of `gen_js_api.py`: u64 → big integer (`new BN`),
Pubkey → opaque key (`new PublicKey`), bool → `Boolean(... .readUInt8())`,
String → `String(...)`, u32 → bare space (truthy in Python, so the loop
continues without emitting a field). -/
def lookup_decoder (t n : String) : Option DecodeEntry :=
  if t = "u64" then some (.bn n)
  else if t = "Pubkey" then some (.publicKey n)
  else if t = "bool" then some (.boolean n)
  else if t = "String" then some (.str n)
  else if t = "u32" then some .pad
  else none

/-- Result of `lookup_interface t n`: one interface member declaration.
`pad` again stands for the bare-space fragment returned for `u32`. -/
inductive InterfaceEntry where
  | bnType (name : String)
  | publicKeyType (name : String)
  | booleanType (name : String)
  | stringType (name : String)
  | pad
deriving DecidableEq

/-- The member name an interface fragment declares (`none` for padding). -/
def InterfaceEntry.fieldName : InterfaceEntry → Option String
  | .bnType n => some n
  | .publicKeyType n => some n
  | .booleanType n => some n
  | .stringType n => some n
  | .pad => none

/-- `lookup_interface` of `gen_js_api.py`: u64 → `BN`, Pubkey → `PublicKey`,
bool → `boolean`, String → `string`, u32 → bare space (skip the padding). -/
def lookup_interface (t n : String) : Option InterfaceEntry :=
  if t = "u64" then some (.bnType n)
  else if t = "Pubkey" then some (.publicKeyType n)
  else if t = "bool" then some (.booleanType n)
  else if t = "String" then some (.stringType n)
  else if t = "u32" then some .pad
  else none

/-- Errors of the recursive `generate_*` functions: the raised
`Exception(msg)`, fuel exhaustion (only reachable on cyclic registries),
and the `KeyError` Python would raise on an unregistered top-level name. -/
inductive GenErr where
  | unknown (msg : String)
  | outOfFuel
  | keyError
deriving DecidableEq

/-- Loop body of `generate_buflayout`: one pass over a field list.
`recurse` is the recursive call `generate_buflayout(i[1])` made after the
membership test `i[1] in structs`. -/
def generate_buflayout_body (reg : Registry)
    (recurse : String → Except GenErr (List LayoutEntry)) :
    List Field → Except GenErr (List LayoutEntry)
  | [] => .ok []
  | (n, t) :: rest =>
    match lookup_layout t n with
    | some bl => (generate_buflayout_body reg recurse rest).map (bl :: ·)
    | none =>
      if (regFind reg t).isSome then do
        let inner ← recurse t
        let tail ← generate_buflayout_body reg recurse rest
        .ok (inner ++ tail)
      else .error (.unknown ("Unknown buffer layout for " ++ t ++ ")"))

/-- `generate_buflayout(struct_name)` with fuel bounding the struct-nesting
depth. -/
def generate_buflayout (reg : Registry) : Nat → String → Except GenErr (List LayoutEntry)
  | 0, _ => .error .outOfFuel
  | fuel + 1, struct_name =>
    match regFind reg struct_name with
    | some fields => generate_buflayout_body reg (generate_buflayout reg fuel) fields
    | none => .error .keyError

/-- Loop body of `generate_decoder`. -/
def generate_decoder_body (reg : Registry)
    (recurse : String → Except GenErr (List DecodeEntry)) :
    List Field → Except GenErr (List DecodeEntry)
  | [] => .ok []
  | (n, t) :: rest =>
    match lookup_decoder t n with
    | some dl => (generate_decoder_body reg recurse rest).map (dl :: ·)
    | none =>
      if (regFind reg t).isSome then do
        let inner ← recurse t
        let tail ← generate_decoder_body reg recurse rest
        .ok (inner ++ tail)
      else .error (.unknown ("Unknown decoder for " ++ t))

/-- `generate_decoder(struct_name)` with nesting-depth fuel. -/
def generate_decoder (reg : Registry) : Nat → String → Except GenErr (List DecodeEntry)
  | 0, _ => .error .outOfFuel
  | fuel + 1, struct_name =>
    match regFind reg struct_name with
    | some fields => generate_decoder_body reg (generate_decoder reg fuel) fields
    | none => .error .keyError

/-- Loop body of `generate_interface`. -/
def generate_interface_body (reg : Registry)
    (recurse : String → Except GenErr (List InterfaceEntry)) :
    List Field → Except GenErr (List InterfaceEntry)
  | [] => .ok []
  | (n, t) :: rest =>
    match lookup_interface t n with
    | some dl => (generate_interface_body reg recurse rest).map (dl :: ·)
    | none =>
      if (regFind reg t).isSome then do
        let inner ← recurse t
        let tail ← generate_interface_body reg recurse rest
        .ok (inner ++ tail)
      else .error (.unknown ("Unknown interface type for " ++ t))

/-- `generate_interface(struct_name)` with nesting-depth fuel. -/
def generate_interface (reg : Registry) : Nat → String → Except GenErr (List InterfaceEntry)
  | 0, _ => .error .outOfFuel
  | fuel + 1, struct_name =>
    match regFind reg struct_name with
    | some fields => generate_interface_body reg (generate_interface reg fuel) fields
    | none => .error .keyError

end GenJsApi

/-! ### Tagged borsh schema entries (generate_javascript.py, make_idl.py) -/

/-- One borsh schema field descriptor `[name, kind]`: either a primitive
kind token (quoted in the emitted fragment: u32, u64, f32, u8, string) or a
fixed byte array `[len]`. -/
inductive SchemaEntry where
  | prim (kind : String) (name : String)
  | bytes (len : Nat) (name : String)
deriving DecidableEq

/-- Field name of a schema entry. -/
def SchemaEntry.fieldName : SchemaEntry → String
  | .prim _ n => n
  | .bytes _ n => n

/-- Byte width of a schema entry per the borsh encoding (§4.3 of the spec):
u8 is 1 byte, u32 and f32 are 4 bytes, u64 is 8 bytes, a fixed byte array
is its length, and `string` is variable-width (`none`). -/
def SchemaEntry.width : SchemaEntry → Option Nat
  | .prim k _ =>
    if k = "u8" then some 1
    else if k = "u32" then some 4
    else if k = "u64" then some 8
    else if k = "f32" then some 4
    else none
  | .bytes len _ => some len

/-! ### generate_javascript.py -/

namespace GenerateJs

/-- `lookup_layout` of `generate_javascript.py`, one branch per `if`
(the `bool`/`u8` branch is a single disjunction in the source). -/
def lookup_layout (t n : String) : Option SchemaEntry :=
  if t = "u32" then some (.prim "u32" n)
  else if t = "u64" then some (.prim "u64" n)
  else if t = "f32" then some (.prim "f32" n)
  else if t = "Pubkey" then some (.bytes 32 n)
  else if t = "bool" ∨ t = "u8" then some (.prim "u8" n)
  else if t = "String" then some (.prim "string" n)
  else if t = "[u8; 64]" then some (.bytes 64 n)
  else if t = "[u8; MAX_NAME_SIZE_B]" then some (.bytes 64 n)
  else none

/-- Loop body of `generate_schema`. -/
def generate_schema_body (reg : Registry)
    (recurse : String → Except GenJsApi.GenErr (List SchemaEntry)) :
    List Field → Except GenJsApi.GenErr (List SchemaEntry)
  | [] => .ok []
  | (n, t) :: rest =>
    match lookup_layout t n with
    | some bl => (generate_schema_body reg recurse rest).map (bl :: ·)
    | none =>
      if (regFind reg t).isSome then do
        let inner ← recurse t
        let tail ← generate_schema_body reg recurse rest
        .ok (inner ++ tail)
      else .error (.unknown ("Unknown schema for " ++ t))

/-- `generate_schema(struct_name)` with nesting-depth fuel. -/
def generate_schema (reg : Registry) : Nat → String → Except GenJsApi.GenErr (List SchemaEntry)
  | 0, _ => .error .outOfFuel
  | fuel + 1, struct_name =>
    match regFind reg struct_name with
    | some fields => generate_schema_body reg (generate_schema reg fuel) fields
    | none => .error .keyError

end GenerateJs

/-! ### make_idl.py -/

namespace MakeIdl

/-- `lookup_layout` of `make_idl.py`: like the `generate_javascript.py`
table but without `f32`, without `u8`, and without the fixed byte-array
entries. -/
def lookup_layout (t n : String) : Option SchemaEntry :=
  if t = "u32" then some (.prim "u32" n)
  else if t = "u64" then some (.prim "u64" n)
  else if t = "Pubkey" then some (.bytes 32 n)
  else if t = "bool" then some (.prim "u8" n)
  else if t = "String" then some (.prim "string" n)
  else none

end MakeIdl

/-! ### Struct extraction (parse_structs) -/

/-- Errors raised while scanning struct declarations: the `ValueError` of a
failed 2-tuple unpacking of `element.split(": ")` and the `IndexError` of an
out-of-range list index. -/
inductive ParseErr where
  | notEnough (got : Nat)
  | tooMany
  | indexError
deriving DecidableEq

/-- The message carried by the corresponding Python exception. -/
def ParseErr.message : ParseErr → String
  | .notEnough g => "not enough values to unpack (expected 2, got " ++ toString g ++ ")"
  | .tooMany => "too many values to unpack (expected 2)"
  | .indexError => "list index out of range"

/-- `a, b = l`: Python unpacking of a list into exactly two names. -/
def unpack2 : List String → Except ParseErr (String × String)
  | [a, b] => .ok (a, b)
  | l => if l.length < 2 then .error (.notEnough l.length) else .error .tooMany

/-- Scanner state of `parse_structs`: `inside = some name` while a struct
body is open (Python `found` plus the current `struct_name`). -/
structure PState where
  inside : Option String
  registry : Registry
deriving DecidableEq

namespace GenJsApi

/-- The field element computed from an in-struct line in `gen_js_api.py`:
`element = i.strip()[4:-1]`, then the lifetime marker is stripped when the
element ends with it. -/
def fieldElement (i : String) : String :=
  let element := pyDropRight 1 (pyDrop 4 (pyStrip i))
  if pyEndsWith lifetimeStr element then pyDropRight 4 element else element

/-- One iteration of the `parse_structs` loop of `gen_js_api.py`: field
handling while inside a struct, then the struct-start branch, then the
closing-brace branch. -/
def parse_line (st : PState) (i : String) : Except ParseErr PState := do
  let st1 ←
    match st.inside with
    | some nm =>
      if !(pyStartsWith "//" (pyStrip i)) && !(pyStartsWith "\x7d" (pyStrip i)) then do
        let (elem_name, elem_type) ← unpack2 (pySplitS ": " (fieldElement i))
        pure { st with registry := regAppend st.registry nm (elem_name, elem_type) }
      else pure st
    | none => pure st
  let st2 ←
    if pyStartsWith "pub struct" i then do
      let nm0 ←
        match (pySplitWs i).get? 2 with
        | some x => pure x
        | none => Except.error ParseErr.indexError
      let nm := if pyEndsWith lifetimeStr nm0 then pyDropRight 4 nm0 else nm0
      pure { st1 with inside := some nm, registry := regSet st1.registry nm [] }
    else pure st1
  pure (if pyStartsWith "\x7d" i then { st2 with inside := none } else st2)

/-- `parse_structs(lines)` of `gen_js_api.py`, starting from an empty
registry. -/
def parse_structs (lines : List String) : Except ParseErr Registry := do
  let st ← lines.foldlM parse_line ⟨none, []⟩
  pure st.registry

end GenJsApi

namespace GenerateJs

/-- The `lifetimes` list of `generate_javascript.py`. -/
def lifetimes : List String := [lifetimeStr]

/-- The lifetime-stripping loop (`for life in lifetimes: ...`). -/
def stripLifetimes (e : String) : String :=
  lifetimes.foldl
    (fun acc life => if pyEndsWith life acc then pyDropRight life.toList.length acc else acc) e

/-- The field element computed from an in-struct line in
`generate_javascript.py`. -/
def fieldElement (i : String) : String :=
  stripLifetimes (pyDropRight 1 (pyDrop 4 (pyStrip i)))

/-- One iteration of the `parse_structs` loop of `generate_javascript.py`
(identical to the `gen_js_api.py` loop except for the lifetime handling). -/
def parse_line (st : PState) (i : String) : Except ParseErr PState := do
  let st1 ←
    match st.inside with
    | some nm =>
      if !(pyStartsWith "//" (pyStrip i)) && !(pyStartsWith "\x7d" (pyStrip i)) then do
        let (elem_name, elem_type) ← unpack2 (pySplitS ": " (fieldElement i))
        pure { st with registry := regAppend st.registry nm (elem_name, elem_type) }
      else pure st
    | none => pure st
  let st2 ←
    if pyStartsWith "pub struct" i then do
      let nm0 ←
        match (pySplitWs i).get? 2 with
        | some x => pure x
        | none => Except.error ParseErr.indexError
      pure { st1 with inside := some (stripLifetimes nm0),
                      registry := regSet st1.registry (stripLifetimes nm0) [] }
    else pure st1
  pure (if pyStartsWith "\x7d" i then { st2 with inside := none } else st2)

/-- `parse_structs(lines)` of `generate_javascript.py`. -/
def parse_structs (lines : List String) : Except ParseErr Registry := do
  let st ← lines.foldlM parse_line ⟨none, []⟩
  pure st.registry

/-! ### Account-descriptor extraction (parse_instruction_accounts) -/

/-- One emitted account record `(name, isMut, isSigner)`; the two flags are
the literal `true`/`false` tokens the script stores and prints. -/
abbrev Account := String × String × String

/-- Scanner state of `parse_instruction_accounts`. -/
structure IAState where
  found : Bool
  accounts : List Account
deriving DecidableEq

/-- One iteration of the `parse_instruction_accounts` loop: while inside the
target struct, read the field name before `": "` and the attribute list
between the brackets of the trailing `// [...]` comment; `writable` sets the
mutable flag and `signer` the signer flag, an empty attribute list leaves
both `"false"`. -/
def parse_ia_line (struct_name : String) (st : IAState) (line : String) :
    Except ParseErr IAState := do
  let st1 ←
    if st.found && !(pyStartsWith "//" (pyStrip line)) && !(pyStartsWith "\x7d" (pyStrip line)) then do
      let ln := pyDrop 4 (pyStrip line)
      let name := (pySplitS ": " ln).headD ""
      let attrsRaw ←
        match (pySplitS "// " ln).get? 1 with
        | some x => pure x
        | none => Except.error ParseErr.indexError
      let attrs := pyDropRight 1 (pyDrop 1 attrsRaw)
      let attr_tup :=
        if pyStrip attrs ≠ "" then
          ((if (pySplitS ", " attrs).contains "writable" then "true" else "false"),
           (if (pySplitS ", " attrs).contains "signer" then "true" else "false"))
        else ("false", "false")
      pure { st with accounts := st.accounts ++ [(name, attr_tup.1, attr_tup.2)] }
    else pure st
  let st2 :=
    if pyStartsWith ("pub struct " ++ struct_name) line then { st1 with found := true } else st1
  pure (if pyStartsWith "\x7d" line then { st2 with found := false } else st2)

/-- `parse_instruction_accounts(lines, struct_name)`, returning the ordered
account-descriptor list. -/
def parse_instruction_accounts (lines : List String) (struct_name : String) :
    Except ParseErr (List Account) := do
  let st ← lines.foldlM (parse_ia_line struct_name) ⟨false, []⟩
  pure st.accounts

end GenerateJs

end TimelockGen

namespace TimelockGen

/-! ### Acyclicity and closedness of a registry -/

/-- A registry's struct-reference graph is acyclic iff some rank function
decreases along every reference from a struct to a registered field type
(a topological ranking of the reference graph). -/
abbrev RankOk (reg : Registry) (rank : String → Nat) : Prop :=
  ∀ p ∈ reg, ∀ f ∈ p.2, (regFind reg f.2).isSome = true → rank f.2 < rank p.1

/-- The registry invariant of the spec (§3) for the fixed-layout renderer:
every field type token resolves to a primitive mapping or a registry key. -/
abbrev ClosedLayout (reg : Registry) : Prop :=
  ∀ p ∈ reg, ∀ f ∈ p.2,
    (GenJsApi.lookup_layout f.2 f.1).isSome = true ∨ (regFind reg f.2).isSome = true

/-- The registry invariant for the tagged-schema renderer of
`generate_javascript.py`. -/
abbrev ClosedSchema (reg : Registry) : Prop :=
  ∀ p ∈ reg, ∀ f ∈ p.2,
    (GenerateJs.lookup_layout f.2 f.1).isSome = true ∨ (regFind reg f.2).isSome = true

/-- The `Foo` scenario registry of the specification:
`struct Foo { a: u64, b: Pubkey, c: bool }`. -/
def fooReg : Registry := [("Foo", [("a", "u64"), ("b", "Pubkey"), ("c", "bool")])]

/-- Registry with a single struct holding one `u8` field (C2 scenario). -/
def u8Reg : Registry := [("S", [("x", "u8")])]

/-- Registry with one struct holding the unknown-typed field
`weight: f128` (C6 scenario). -/
def f128Reg : Registry := [("Vesting", [("weight", "f128")])]

/-- Nested acyclic registry: `Outer` references `Inner` (C4 witness). -/
def nestedReg : Registry :=
  [("Inner", [("y", "bool")]), ("Outer", [("x", "u64"), ("inn", "Inner")])]

/-- Instruction-account scenario of C7: first field annotated
`// [writable, signer]`, second field annotated `// []`. -/
def c7Lines : List String :=
  ["pub struct CreateAccounts \x7b",
   "    pub sender: AccountInfo, // [writable, signer]",
   "    pub recipient: AccountInfo, // []",
   "\x7d"]

/-- C8 scenario: a struct-start marker encountered while the scanner is
already inside a struct body. -/
def c8Lines : List String :=
  ["pub struct A \x7b", "pub struct B \x7b"]

/-- C9 scenario: an in-struct field line lacking the `": "` separator. -/
def c9Lines : List String :=
  ["pub struct Stream \x7b", "    pub weight f128,", "\x7d"]

/-- C10 scenario: a field line of the target instruction-account struct
with no trailing `// [...]` comment at all. -/
def c10Lines : List String :=
  ["pub struct WithdrawAccounts \x7b", "    pub sender: AccountInfo,", "\x7d"]

/-! ### Helper lemmas: Python `split` on a separator-free string -/

/-- `pySplitF` returns the whole input as a single piece when the separator
does not occur in it (given enough fuel and a non-empty separator). -/
theorem pySplitF_single (sep : List Char) (_hne : sep ≠ []) :
    ∀ fuel l, l.length < fuel → ¬ sep <:+: l → pySplitF sep fuel l = [l] := by
  intro fuel
  induction fuel with
  | zero => intro l h _; exact absurd h (Nat.not_lt_zero _)
  | succ f ih =>
    intro l hlen hinf
    match l with
    | [] => rfl
    | c :: rest =>
      have hp : sep.isPrefixOf (c :: rest) = false := by
        cases hp : sep.isPrefixOf (c :: rest) with
        | true => exact absurd (List.isPrefixOf_iff_prefix.mp hp).isInfix hinf
        | false => rfl
      have hrest : ¬ sep <:+: rest := fun h =>
        hinf (h.trans (List.suffix_cons c rest).isInfix)
      have hlen' : rest.length < f := by
        simpa using Nat.lt_of_succ_lt_succ hlen
      simp [pySplitF, hp, ih rest hlen' hrest]

/-- `pySplit` on a separator-free character list. -/
theorem pySplit_single (sep l : List Char) (hne : sep ≠ []) (hinf : ¬ sep <:+: l) :
    pySplit sep l = [l] :=
  pySplitF_single sep hne _ l (Nat.lt_succ_self _) hinf

/-- Python `s.split(sep)` on a separator-free string is `[s]`. -/
theorem pySplitS_single (sep s : String) (hne : sep.toList ≠ [])
    (hinf : ¬ sep.toList <:+: s.toList) : pySplitS sep s = [s] := by
  unfold pySplitS
  rw [pySplit_single sep.toList s.toList hne hinf]
  rfl

/-- Binding after a failed `Except` step propagates the error. -/
theorem except_error_bind {ε α β : Type} (e : ε) (f : α → Except ε β) :
    (Except.error e >>= f) = Except.error e := rfl

/-! ### Helper lemmas: the scanned field element is a substring of its line -/

/-- Stripping whitespace yields an infix of the original character list. -/
theorem stripChars_substring (l : List Char) : stripChars l <:+: l := by
  unfold stripChars
  have h1 : l.dropWhile wsChar <:+ l := List.dropWhile_suffix _
  have h2 : ((l.dropWhile wsChar).reverse.dropWhile wsChar).reverse <+: l.dropWhile wsChar := by
    rw [← List.reverse_suffix]
    simpa using List.dropWhile_suffix (l := (l.dropWhile wsChar).reverse) wsChar
  exact h2.isInfix.trans h1.isInfix

/-- `pyStrip` yields an infix of the original string's characters. -/
theorem pyStrip_substring (s : String) : (pyStrip s).toList <:+: s.toList :=
  stripChars_substring s.toList

/-- `pyDrop` yields an infix (in fact a suffix). -/
theorem pyDrop_substring (n : Nat) (s : String) : (pyDrop n s).toList <:+: s.toList :=
  (List.drop_suffix n s.toList).isInfix

/-- `pyDropRight` yields an infix (in fact a prefix). -/
theorem pyDropRight_substring (n : Nat) (s : String) : (pyDropRight n s).toList <:+: s.toList :=
  (List.take_prefix _ s.toList).isInfix

/-- The field element scanned by `gen_js_api.py` is a substring of the
scanned line. -/
theorem GenJsApi.fieldElement_substring_api (i : String) :
    (GenJsApi.fieldElement i).toList <:+: i.toList := by
  unfold GenJsApi.fieldElement
  have h1 : (pyDropRight 1 (pyDrop 4 (pyStrip i))).toList <:+: i.toList :=
    (pyDropRight_substring _ _).trans ((pyDrop_substring _ _).trans (pyStrip_substring _))
  by_cases h : pyEndsWith lifetimeStr (pyDropRight 1 (pyDrop 4 (pyStrip i)))
  · simp only [h, if_true]
    exact (pyDropRight_substring _ _).trans h1
  · simp only [h, if_false]
    exact h1

/-- The lifetime-stripping loop of `generate_javascript.py` yields an infix. -/
theorem GenerateJs.stripLifetimes_substring (e : String) :
    (GenerateJs.stripLifetimes e).toList <:+: e.toList := by
  unfold GenerateJs.stripLifetimes GenerateJs.lifetimes
  simp only [List.foldl]
  by_cases h : pyEndsWith lifetimeStr e
  · simp only [h, if_true]
    exact pyDropRight_substring _ _
  · simp only [h, if_false]
    exact List.infix_rfl

/-- The field element scanned by `generate_javascript.py` is a substring of
the scanned line. -/
theorem GenerateJs.fieldElement_substring_js (i : String) :
    (GenerateJs.fieldElement i).toList <:+: i.toList := by
  unfold GenerateJs.fieldElement
  exact (GenerateJs.stripLifetimes_substring _).trans
    ((pyDropRight_substring _ _).trans ((pyDrop_substring _ _).trans (pyStrip_substring _)))

/-- The trimmed account line `ln = line.strip()[4:]` scanned by
`parse_instruction_accounts` is a substring of the scanned line. -/
theorem iaLine_substring (line : String) :
    (pyDrop 4 (pyStrip line)).toList <:+: line.toList :=
  (pyDrop_substring _ _).trans (pyStrip_substring _)

/-! ### Helper lemmas: lookup results carry the field name -/

/-- A fixed-layout entry produced by `lookup_layout` is named after the
field. -/
theorem GenJsApi.lookup_layout_name (t n : String) (e : GenJsApi.LayoutEntry)
    (h : GenJsApi.lookup_layout t n = some e) : e.fieldName = n := by
  unfold GenJsApi.lookup_layout at h
  split_ifs at h <;> (injection h with h; subst h; rfl)

/-- A decode entry produced by `lookup_decoder` is the nameless padding
fragment exactly for `u32`, and otherwise defines the field's key. -/
theorem GenJsApi.lookup_decoder_name (t n : String) (e : GenJsApi.DecodeEntry)
    (h : GenJsApi.lookup_decoder t n = some e) :
    (t = "u32" ∧ e = .pad) ∨ (t ≠ "u32" ∧ e.fieldName = some n) := by
  unfold GenJsApi.lookup_decoder at h
  split_ifs at h with h1 h2 h3 h4 h5
  · injection h with h; subst h; exact .inr ⟨by subst h1; decide, rfl⟩
  · injection h with h; subst h; exact .inr ⟨by subst h2; decide, rfl⟩
  · injection h with h; subst h; exact .inr ⟨by subst h3; decide, rfl⟩
  · injection h with h; subst h; exact .inr ⟨by subst h4; decide, rfl⟩
  · injection h with h; subst h; exact .inl ⟨h5, rfl⟩

/-- An interface entry produced by `lookup_interface` is the nameless
padding fragment exactly for `u32`, and otherwise declares the field. -/
theorem GenJsApi.lookup_interface_name (t n : String) (e : GenJsApi.InterfaceEntry)
    (h : GenJsApi.lookup_interface t n = some e) :
    (t = "u32" ∧ e = .pad) ∨ (t ≠ "u32" ∧ e.fieldName = some n) := by
  unfold GenJsApi.lookup_interface at h
  split_ifs at h with h1 h2 h3 h4 h5
  · injection h with h; subst h; exact .inr ⟨by subst h1; decide, rfl⟩
  · injection h with h; subst h; exact .inr ⟨by subst h2; decide, rfl⟩
  · injection h with h; subst h; exact .inr ⟨by subst h3; decide, rfl⟩
  · injection h with h; subst h; exact .inr ⟨by subst h4; decide, rfl⟩
  · injection h with h; subst h; exact .inl ⟨h5, rfl⟩

/-- A schema entry produced by the `generate_javascript.py` lookup is named
after the field. -/
theorem GenerateJs.schema_lookup_name (t n : String) (e : SchemaEntry)
    (h : GenerateJs.lookup_layout t n = some e) : e.fieldName = n := by
  unfold GenerateJs.lookup_layout at h
  split_ifs at h <;> (injection h with h; subst h; rfl)

/-- The three `gen_js_api.py` lookup tables recognize exactly the same type
tokens. -/
theorem GenJsApi.lookup_domains (t n : String) :
    (GenJsApi.lookup_decoder t n).isSome = (GenJsApi.lookup_layout t n).isSome ∧
    (GenJsApi.lookup_interface t n).isSome = (GenJsApi.lookup_layout t n).isSome := by
  unfold GenJsApi.lookup_decoder GenJsApi.lookup_interface GenJsApi.lookup_layout
  split_ifs <;> simp_all

/-! ### Helper lemmas: renderer bodies on all-primitive field lists -/

/-- On a field list whose tokens are all in the primitive table, the
fixed-layout body succeeds and emits one entry per field, in order, named
after the fields. -/
theorem GenJsApi.buflayout_body_prim (reg : Registry)
    (r : String → Except GenJsApi.GenErr (List GenJsApi.LayoutEntry)) :
    ∀ fields : List Field,
    (∀ f ∈ fields, (GenJsApi.lookup_layout f.2 f.1).isSome = true) →
    ∃ l, GenJsApi.generate_buflayout_body reg r fields = .ok l ∧
      l.map GenJsApi.LayoutEntry.fieldName = fields.map Prod.fst := by
  intro fields
  induction fields with
  | nil => intro _; exact ⟨[], rfl, rfl⟩
  | cons f rest ih =>
    intro h
    obtain ⟨n, t⟩ := f
    obtain ⟨e, he⟩ := Option.isSome_iff_exists.mp (h (n, t) (List.mem_cons_self _ _))
    obtain ⟨l, hl, hnames⟩ := ih (fun f hf => h f (List.mem_cons_of_mem _ hf))
    refine ⟨e :: l, ?_, ?_⟩
    · simp [GenJsApi.generate_buflayout_body, he, hl, Except.map]
    · simp [hnames, GenJsApi.lookup_layout_name t n e he]

/-- On an all-primitive field list the schema body of
`generate_javascript.py` succeeds and emits one entry per field, in order,
named after the fields. -/
theorem GenerateJs.schema_body_prim (reg : Registry)
    (r : String → Except GenJsApi.GenErr (List SchemaEntry)) :
    ∀ fields : List Field,
    (∀ f ∈ fields, (GenerateJs.lookup_layout f.2 f.1).isSome = true) →
    ∃ l, GenerateJs.generate_schema_body reg r fields = .ok l ∧
      l.map SchemaEntry.fieldName = fields.map Prod.fst := by
  intro fields
  induction fields with
  | nil => intro _; exact ⟨[], rfl, rfl⟩
  | cons f rest ih =>
    intro h
    obtain ⟨n, t⟩ := f
    obtain ⟨e, he⟩ := Option.isSome_iff_exists.mp (h (n, t) (List.mem_cons_self _ _))
    obtain ⟨l, hl, hnames⟩ := ih (fun f hf => h f (List.mem_cons_of_mem _ hf))
    refine ⟨e :: l, ?_, ?_⟩
    · simp [GenerateJs.generate_schema_body, he, hl, Except.map]
    · simp [hnames, GenerateJs.schema_lookup_name t n e he]

/-- On an all-primitive field list the decode body succeeds; the keys of
the decoded object are exactly the non-`u32` field names, in declaration
order. -/
theorem GenJsApi.decoder_body_prim (reg : Registry)
    (r : String → Except GenJsApi.GenErr (List GenJsApi.DecodeEntry)) :
    ∀ fields : List Field,
    (∀ f ∈ fields, (GenJsApi.lookup_layout f.2 f.1).isSome = true) →
    ∃ l, GenJsApi.generate_decoder_body reg r fields = .ok l ∧
      l.filterMap GenJsApi.DecodeEntry.fieldName =
        (fields.filter (fun f => f.2 ≠ "u32")).map Prod.fst := by
  intro fields
  induction fields with
  | nil => intro _; exact ⟨[], rfl, rfl⟩
  | cons f rest ih =>
    intro h
    obtain ⟨n, t⟩ := f
    obtain ⟨e, he⟩ := Option.isSome_iff_exists.mp
      (by rw [(GenJsApi.lookup_domains t n).1]; exact h (n, t) (List.mem_cons_self _ _))
    obtain ⟨l, hl, hnames⟩ := ih (fun f hf => h f (List.mem_cons_of_mem _ hf))
    refine ⟨e :: l, ?_, ?_⟩
    · simp [GenJsApi.generate_decoder_body, he, hl, Except.map]
    · rcases GenJsApi.lookup_decoder_name t n e he with ⟨ht, hpad⟩ | ⟨ht, hname⟩
      · simp [ht, hpad, hnames, GenJsApi.DecodeEntry.fieldName]
      · simp [ht, hname, hnames, List.filter]

/-- On an all-primitive field list the interface body succeeds; the
declared members are exactly the non-`u32` field names, in declaration
order. -/
theorem GenJsApi.interface_body_prim (reg : Registry)
    (r : String → Except GenJsApi.GenErr (List GenJsApi.InterfaceEntry)) :
    ∀ fields : List Field,
    (∀ f ∈ fields, (GenJsApi.lookup_layout f.2 f.1).isSome = true) →
    ∃ l, GenJsApi.generate_interface_body reg r fields = .ok l ∧
      l.filterMap GenJsApi.InterfaceEntry.fieldName =
        (fields.filter (fun f => f.2 ≠ "u32")).map Prod.fst := by
  intro fields
  induction fields with
  | nil => intro _; exact ⟨[], rfl, rfl⟩
  | cons f rest ih =>
    intro h
    obtain ⟨n, t⟩ := f
    obtain ⟨e, he⟩ := Option.isSome_iff_exists.mp
      (by rw [(GenJsApi.lookup_domains t n).2]; exact h (n, t) (List.mem_cons_self _ _))
    obtain ⟨l, hl, hnames⟩ := ih (fun f hf => h f (List.mem_cons_of_mem _ hf))
    refine ⟨e :: l, ?_, ?_⟩
    · simp [GenJsApi.generate_interface_body, he, hl, Except.map]
    · rcases GenJsApi.lookup_interface_name t n e he with ⟨ht, hpad⟩ | ⟨ht, hname⟩
      · simp [ht, hpad, hnames, GenJsApi.InterfaceEntry.fieldName]
      · simp [ht, hname, hnames, List.filter]

/-! ### Helper lemmas: `Except` computation shapes -/

/-- Mapping over an `Except` yields `ok` exactly when the argument does. -/
theorem except_map_eq_ok {ε α β : Type} (f : α → β) (x : Except ε α) (y : β) :
    x.map f = .ok y ↔ ∃ a, x = .ok a ∧ f a = y := by
  cases x <;> simp [Except.map]

/-- A bound `Except` computation yields `ok` exactly when both steps do. -/
theorem except_bind_eq_ok {ε α β : Type} (x : Except ε α) (g : α → Except ε β) (y : β) :
    (x >>= g) = .ok y ↔ ∃ a, x = .ok a ∧ g a = .ok y := by
  cases x <;> simp [Bind.bind, Except.bind]

/-! ### Helper lemmas: renderer bodies distribute over appended field lists -/

/-- Successful fixed-layout rendering of concatenated field lists is the
concatenation of the renderings. -/
theorem GenJsApi.buflayout_body_append (reg : Registry)
    (r : String → Except GenJsApi.GenErr (List GenJsApi.LayoutEntry)) :
    ∀ (a b : List Field) (la lb : List GenJsApi.LayoutEntry),
    GenJsApi.generate_buflayout_body reg r a = .ok la →
    GenJsApi.generate_buflayout_body reg r b = .ok lb →
    GenJsApi.generate_buflayout_body reg r (a ++ b) = .ok (la ++ lb) := by
  intro a
  induction a with
  | nil =>
    intro b la lb h1 h2
    simp only [GenJsApi.generate_buflayout_body, Except.ok.injEq] at h1
    subst h1
    simpa using h2
  | cons f rest ih =>
    intro b la lb h1 h2
    obtain ⟨n, t⟩ := f
    rw [List.cons_append]
    simp only [GenJsApi.generate_buflayout_body] at h1 ⊢
    cases he : GenJsApi.lookup_layout t n with
    | some e =>
      rw [he] at h1
      replace h1 : Except.map (fun x => e :: x) (GenJsApi.generate_buflayout_body reg r rest) = Except.ok la := h1
      obtain ⟨l2, hl2, hla⟩ := (except_map_eq_ok _ _ _).mp h1
      subst hla
      show Except.map (fun x => e :: x) (GenJsApi.generate_buflayout_body reg r (rest ++ b)) =
        Except.ok (e :: l2 ++ lb)
      rw [ih b l2 lb hl2 h2]
      simp [Except.map]
    | none =>
      rw [he] at h1
      replace h1 : (if (regFind reg t).isSome = true then
          r t >>= fun inner => GenJsApi.generate_buflayout_body reg r rest >>= fun tail => Except.ok (inner ++ tail)
        else Except.error (GenJsApi.GenErr.unknown ("Unknown buffer layout for " ++ t ++ ")"))) = Except.ok la := h1
      show (if (regFind reg t).isSome = true then
          r t >>= fun inner => GenJsApi.generate_buflayout_body reg r (rest ++ b) >>= fun tail => Except.ok (inner ++ tail)
        else Except.error (GenJsApi.GenErr.unknown ("Unknown buffer layout for " ++ t ++ ")"))) = Except.ok (la ++ lb)
      by_cases hreg : (regFind reg t).isSome = true
      · rw [if_pos hreg] at h1 ⊢
        obtain ⟨li, hli, h1b⟩ := (except_bind_eq_ok _ _ _).mp h1
        obtain ⟨lt, hlt, h1c⟩ := (except_bind_eq_ok _ _ _).mp h1b
        injection h1c with h1c
        subst h1c
        rw [hli]
        show GenJsApi.generate_buflayout_body reg r (rest ++ b) >>= (fun tail => Except.ok (li ++ tail)) =
          Except.ok (li ++ lt ++ lb)
        rw [ih b lt lb hlt h2]
        show Except.ok (li ++ (lt ++ lb)) = Except.ok (li ++ lt ++ lb)
        rw [List.append_assoc]
      · rw [if_neg hreg] at h1
        exact absurd h1 (by simp)

/-- Successful decode-function rendering of concatenated field lists is
the concatenation of the renderings. -/
theorem GenJsApi.decoder_body_append (reg : Registry)
    (r : String → Except GenJsApi.GenErr (List GenJsApi.DecodeEntry)) :
    ∀ (a b : List Field) (la lb : List GenJsApi.DecodeEntry),
    GenJsApi.generate_decoder_body reg r a = .ok la →
    GenJsApi.generate_decoder_body reg r b = .ok lb →
    GenJsApi.generate_decoder_body reg r (a ++ b) = .ok (la ++ lb) := by
  intro a
  induction a with
  | nil =>
    intro b la lb h1 h2
    simp only [GenJsApi.generate_decoder_body, Except.ok.injEq] at h1
    subst h1
    simpa using h2
  | cons f rest ih =>
    intro b la lb h1 h2
    obtain ⟨n, t⟩ := f
    rw [List.cons_append]
    simp only [GenJsApi.generate_decoder_body] at h1 ⊢
    cases he : GenJsApi.lookup_decoder t n with
    | some e =>
      rw [he] at h1
      replace h1 : Except.map (fun x => e :: x) (GenJsApi.generate_decoder_body reg r rest) = Except.ok la := h1
      obtain ⟨l2, hl2, hla⟩ := (except_map_eq_ok _ _ _).mp h1
      subst hla
      show Except.map (fun x => e :: x) (GenJsApi.generate_decoder_body reg r (rest ++ b)) =
        Except.ok (e :: l2 ++ lb)
      rw [ih b l2 lb hl2 h2]
      simp [Except.map]
    | none =>
      rw [he] at h1
      replace h1 : (if (regFind reg t).isSome = true then
          r t >>= fun inner => GenJsApi.generate_decoder_body reg r rest >>= fun tail => Except.ok (inner ++ tail)
        else Except.error (GenJsApi.GenErr.unknown ("Unknown decoder for " ++ t))) = Except.ok la := h1
      show (if (regFind reg t).isSome = true then
          r t >>= fun inner => GenJsApi.generate_decoder_body reg r (rest ++ b) >>= fun tail => Except.ok (inner ++ tail)
        else Except.error (GenJsApi.GenErr.unknown ("Unknown decoder for " ++ t))) = Except.ok (la ++ lb)
      by_cases hreg : (regFind reg t).isSome = true
      · rw [if_pos hreg] at h1 ⊢
        obtain ⟨li, hli, h1b⟩ := (except_bind_eq_ok _ _ _).mp h1
        obtain ⟨lt, hlt, h1c⟩ := (except_bind_eq_ok _ _ _).mp h1b
        injection h1c with h1c
        subst h1c
        rw [hli]
        show GenJsApi.generate_decoder_body reg r (rest ++ b) >>= (fun tail => Except.ok (li ++ tail)) =
          Except.ok (li ++ lt ++ lb)
        rw [ih b lt lb hlt h2]
        show Except.ok (li ++ (lt ++ lb)) = Except.ok (li ++ lt ++ lb)
        rw [List.append_assoc]
      · rw [if_neg hreg] at h1
        exact absurd h1 (by simp)

/-- Successful interface rendering of concatenated field lists is the
concatenation of the renderings. -/
theorem GenJsApi.interface_body_append (reg : Registry)
    (r : String → Except GenJsApi.GenErr (List GenJsApi.InterfaceEntry)) :
    ∀ (a b : List Field) (la lb : List GenJsApi.InterfaceEntry),
    GenJsApi.generate_interface_body reg r a = .ok la →
    GenJsApi.generate_interface_body reg r b = .ok lb →
    GenJsApi.generate_interface_body reg r (a ++ b) = .ok (la ++ lb) := by
  intro a
  induction a with
  | nil =>
    intro b la lb h1 h2
    simp only [GenJsApi.generate_interface_body, Except.ok.injEq] at h1
    subst h1
    simpa using h2
  | cons f rest ih =>
    intro b la lb h1 h2
    obtain ⟨n, t⟩ := f
    rw [List.cons_append]
    simp only [GenJsApi.generate_interface_body] at h1 ⊢
    cases he : GenJsApi.lookup_interface t n with
    | some e =>
      rw [he] at h1
      replace h1 : Except.map (fun x => e :: x) (GenJsApi.generate_interface_body reg r rest) = Except.ok la := h1
      obtain ⟨l2, hl2, hla⟩ := (except_map_eq_ok _ _ _).mp h1
      subst hla
      show Except.map (fun x => e :: x) (GenJsApi.generate_interface_body reg r (rest ++ b)) =
        Except.ok (e :: l2 ++ lb)
      rw [ih b l2 lb hl2 h2]
      simp [Except.map]
    | none =>
      rw [he] at h1
      replace h1 : (if (regFind reg t).isSome = true then
          r t >>= fun inner => GenJsApi.generate_interface_body reg r rest >>= fun tail => Except.ok (inner ++ tail)
        else Except.error (GenJsApi.GenErr.unknown ("Unknown interface type for " ++ t))) = Except.ok la := h1
      show (if (regFind reg t).isSome = true then
          r t >>= fun inner => GenJsApi.generate_interface_body reg r (rest ++ b) >>= fun tail => Except.ok (inner ++ tail)
        else Except.error (GenJsApi.GenErr.unknown ("Unknown interface type for " ++ t))) = Except.ok (la ++ lb)
      by_cases hreg : (regFind reg t).isSome = true
      · rw [if_pos hreg] at h1 ⊢
        obtain ⟨li, hli, h1b⟩ := (except_bind_eq_ok _ _ _).mp h1
        obtain ⟨lt, hlt, h1c⟩ := (except_bind_eq_ok _ _ _).mp h1b
        injection h1c with h1c
        subst h1c
        rw [hli]
        show GenJsApi.generate_interface_body reg r (rest ++ b) >>= (fun tail => Except.ok (li ++ tail)) =
          Except.ok (li ++ lt ++ lb)
        rw [ih b lt lb hlt h2]
        show Except.ok (li ++ (lt ++ lb)) = Except.ok (li ++ lt ++ lb)
        rw [List.append_assoc]
      · rw [if_neg hreg] at h1
        exact absurd h1 (by simp)

/-- Successful tagged-schema rendering of concatenated field lists is the
concatenation of the renderings. -/
theorem GenerateJs.schema_body_append (reg : Registry)
    (r : String → Except GenJsApi.GenErr (List SchemaEntry)) :
    ∀ (a b : List Field) (la lb : List SchemaEntry),
    GenerateJs.generate_schema_body reg r a = .ok la →
    GenerateJs.generate_schema_body reg r b = .ok lb →
    GenerateJs.generate_schema_body reg r (a ++ b) = .ok (la ++ lb) := by
  intro a
  induction a with
  | nil =>
    intro b la lb h1 h2
    simp only [GenerateJs.generate_schema_body, Except.ok.injEq] at h1
    subst h1
    simpa using h2
  | cons f rest ih =>
    intro b la lb h1 h2
    obtain ⟨n, t⟩ := f
    rw [List.cons_append]
    simp only [GenerateJs.generate_schema_body] at h1 ⊢
    cases he : GenerateJs.lookup_layout t n with
    | some e =>
      rw [he] at h1
      replace h1 : Except.map (fun x => e :: x) (GenerateJs.generate_schema_body reg r rest) = Except.ok la := h1
      obtain ⟨l2, hl2, hla⟩ := (except_map_eq_ok _ _ _).mp h1
      subst hla
      show Except.map (fun x => e :: x) (GenerateJs.generate_schema_body reg r (rest ++ b)) =
        Except.ok (e :: l2 ++ lb)
      rw [ih b l2 lb hl2 h2]
      simp [Except.map]
    | none =>
      rw [he] at h1
      replace h1 : (if (regFind reg t).isSome = true then
          r t >>= fun inner => GenerateJs.generate_schema_body reg r rest >>= fun tail => Except.ok (inner ++ tail)
        else Except.error (GenJsApi.GenErr.unknown ("Unknown schema for " ++ t))) = Except.ok la := h1
      show (if (regFind reg t).isSome = true then
          r t >>= fun inner => GenerateJs.generate_schema_body reg r (rest ++ b) >>= fun tail => Except.ok (inner ++ tail)
        else Except.error (GenJsApi.GenErr.unknown ("Unknown schema for " ++ t))) = Except.ok (la ++ lb)
      by_cases hreg : (regFind reg t).isSome = true
      · rw [if_pos hreg] at h1 ⊢
        obtain ⟨li, hli, h1b⟩ := (except_bind_eq_ok _ _ _).mp h1
        obtain ⟨lt, hlt, h1c⟩ := (except_bind_eq_ok _ _ _).mp h1b
        injection h1c with h1c
        subst h1c
        rw [hli]
        show GenerateJs.generate_schema_body reg r (rest ++ b) >>= (fun tail => Except.ok (li ++ tail)) =
          Except.ok (li ++ lt ++ lb)
        rw [ih b lt lb hlt h2]
        show Except.ok (li ++ (lt ++ lb)) = Except.ok (li ++ lt ++ lb)
        rw [List.append_assoc]
      · rw [if_neg hreg] at h1
        exact absurd h1 (by simp)

/-- C1: for `Foo { a: u64, b: Pubkey, c: bool }` the fixed-layout renderer
emits exactly three blob descriptors of widths 8, 32 and 1 bytes (41 bytes
in total), the decode-function renderer returns an object coercing `a` to a
big integer, wrapping `b` as an opaque key and coercing `c` to a boolean,
and the interface renderer declares `a` as a big-integer type, `b` as a key
type and `c` as boolean, each in declaration order. -/
theorem c1_foo_rendering :
    GenJsApi.generate_buflayout fooReg 1 "Foo" =
      .ok [.blob 8 "a", .blob 32 "b", .blob 1 "c"] ∧
    ((GenJsApi.generate_buflayout fooReg 1 "Foo").toOption.getD []).map
        GenJsApi.LayoutEntry.width = [8, 32, 1] ∧
    (((GenJsApi.generate_buflayout fooReg 1 "Foo").toOption.getD []).map
        GenJsApi.LayoutEntry.width).sum = 41 ∧
    GenJsApi.generate_decoder fooReg 1 "Foo" =
      .ok [.bn "a", .publicKey "b", .boolean "c"] ∧
    GenJsApi.generate_interface fooReg 1 "Foo" =
      .ok [.bnType "a", .publicKeyType "b", .booleanType "c"] := by
  refine ⟨by decide, by decide, by decide, by decide, by decide⟩

/-- C7: for an instruction-account struct whose first field carries the
inline comment `// [writable, signer]` and whose second carries `// []`,
the extractor produces, in declaration order, a descriptor with both flags
rendered as the literal `true` token followed by one with both flags
rendered as the literal `false` token. -/
theorem c7_account_descriptors :
    GenerateJs.parse_instruction_accounts c7Lines "CreateAccounts" =
      .ok [("sender", "true", "true"), ("recipient", "false", "false")] := by
  decide

/-- C9 (counterexample): an in-struct field line lacking `": "` does abort
the run, but with the tuple-unpacking `ValueError`, whose message is the
fixed text `not enough values to unpack (expected 2, got 1)` and does not
contain the offending line (nor even its field name). -/
theorem c9_counterexample :
    GenJsApi.parse_structs c9Lines = .error (.notEnough 1) ∧
    (ParseErr.notEnough 1).message = "not enough values to unpack (expected 2, got 1)" ∧
    ¬ ("    pub weight f128,".toList <:+: (ParseErr.notEnough 1).message.toList) ∧
    ¬ ("weight".toList <:+: (ParseErr.notEnough 1).message.toList) := by
  refine ⟨by decide, by decide, by decide, by decide⟩

/-- C9 (amended): while inside a struct body, a non-comment, non-closing
line whose text does not contain the separator `": "` makes both struct
extractors fail fatally with the unpacking error `notEnough 1`; the error
carries only the piece count, not the offending line. -/
theorem c9_missing_separator (nm : String) (reg : Registry) (i : String)
    (h1 : pyStartsWith "//" (pyStrip i) = false)
    (h2 : pyStartsWith "\x7d" (pyStrip i) = false)
    (h3 : ¬ ": ".toList <:+: i.toList) :
    GenJsApi.parse_line ⟨some nm, reg⟩ i = .error (.notEnough 1) ∧
    GenerateJs.parse_line ⟨some nm, reg⟩ i = .error (.notEnough 1) := by
  have hfe1 : ¬ ": ".toList <:+: (GenJsApi.fieldElement i).toList := fun h =>
    h3 (h.trans (GenJsApi.fieldElement_substring_api i))
  have hfe2 : ¬ ": ".toList <:+: (GenerateJs.fieldElement i).toList := fun h =>
    h3 (h.trans (GenerateJs.fieldElement_substring_js i))
  have hs1 : pySplitS ": " (GenJsApi.fieldElement i) = [GenJsApi.fieldElement i] :=
    pySplitS_single _ _ (by decide) hfe1
  have hs2 : pySplitS ": " (GenerateJs.fieldElement i) = [GenerateJs.fieldElement i] :=
    pySplitS_single _ _ (by decide) hfe2
  constructor
  · simp [GenJsApi.parse_line, h1, h2, hs1, unpack2, except_error_bind]
  · simp [GenerateJs.parse_line, h1, h2, hs2, unpack2, except_error_bind]

/-- C9 (witness): the amended theorem applied to the concrete line
`    pub weight f128,` inside struct `Stream`. -/
theorem c9_missing_separator_witness :
    (pyStartsWith "//" (pyStrip "    pub weight f128,") = false ∧
     pyStartsWith "\x7d" (pyStrip "    pub weight f128,") = false ∧
     ¬ ": ".toList <:+: "    pub weight f128,".toList) ∧
    GenJsApi.parse_line ⟨some "Stream", [("Stream", [])]⟩ "    pub weight f128," =
      .error (.notEnough 1) ∧
    GenerateJs.parse_line ⟨some "Stream", [("Stream", [])]⟩ "    pub weight f128," =
      .error (.notEnough 1) :=
  ⟨⟨by decide, by decide, by decide⟩,
   (c9_missing_separator "Stream" [("Stream", [])] "    pub weight f128,"
     (by decide) (by decide) (by decide)).1,
   (c9_missing_separator "Stream" [("Stream", [])] "    pub weight f128,"
     (by decide) (by decide) (by decide)).2⟩

/-- C8 (counterexample): a struct-start marker line scanned while the
scanner is already inside a struct body makes both extractors abort with
the unpacking error, instead of overwriting the struct context and
continuing without an error. -/
theorem c8_counterexample :
    GenJsApi.parse_structs c8Lines = .error (.notEnough 1) ∧
    GenerateJs.parse_structs c8Lines = .error (.notEnough 1) := by
  refine ⟨by decide, by decide⟩

/-- C8 (amended): a line beginning with the struct-start marker that is
scanned while already inside a struct body is first consumed as a field
declaration of the current struct; since it does not contain `": "`, the
scanner raises the unpacking parse error rather than recording a new struct
context. -/
theorem c8_marker_inside_struct (nm : String) (reg : Registry) (i : String)
    (_hmark : pyStartsWith "pub struct" i = true)
    (h1 : pyStartsWith "//" (pyStrip i) = false)
    (h2 : pyStartsWith "\x7d" (pyStrip i) = false)
    (h3 : ¬ ": ".toList <:+: i.toList) :
    GenJsApi.parse_line ⟨some nm, reg⟩ i = .error (.notEnough 1) ∧
    GenerateJs.parse_line ⟨some nm, reg⟩ i = .error (.notEnough 1) := by
  have hfe1 : ¬ ": ".toList <:+: (GenJsApi.fieldElement i).toList := fun h =>
    h3 (h.trans (GenJsApi.fieldElement_substring_api i))
  have hfe2 : ¬ ": ".toList <:+: (GenerateJs.fieldElement i).toList := fun h =>
    h3 (h.trans (GenerateJs.fieldElement_substring_js i))
  have hs1 : pySplitS ": " (GenJsApi.fieldElement i) = [GenJsApi.fieldElement i] :=
    pySplitS_single _ _ (by decide) hfe1
  have hs2 : pySplitS ": " (GenerateJs.fieldElement i) = [GenerateJs.fieldElement i] :=
    pySplitS_single _ _ (by decide) hfe2
  constructor
  · simp [GenJsApi.parse_line, h1, h2, hs1, unpack2, except_error_bind]
  · simp [GenerateJs.parse_line, h1, h2, hs2, unpack2, except_error_bind]

/-- C8 (witness): the amended theorem applied to the marker line
`pub struct B \x7b` scanned inside struct `A`. -/
theorem c8_marker_inside_struct_witness :
    (pyStartsWith "pub struct" "pub struct B \x7b" = true ∧
     pyStartsWith "//" (pyStrip "pub struct B \x7b") = false ∧
     pyStartsWith "\x7d" (pyStrip "pub struct B \x7b") = false ∧
     ¬ ": ".toList <:+: "pub struct B \x7b".toList) ∧
    GenJsApi.parse_line ⟨some "A", [("A", [])]⟩ "pub struct B \x7b" =
      .error (.notEnough 1) ∧
    GenerateJs.parse_line ⟨some "A", [("A", [])]⟩ "pub struct B \x7b" =
      .error (.notEnough 1) :=
  ⟨⟨by decide, by decide, by decide, by decide⟩,
   (c8_marker_inside_struct "A" [("A", [])] "pub struct B \x7b"
     (by decide) (by decide) (by decide) (by decide)).1,
   (c8_marker_inside_struct "A" [("A", [])] "pub struct B \x7b"
     (by decide) (by decide) (by decide) (by decide)).2⟩

/-- C10: the account-descriptor extractor is only total when every scanned
field line of the target struct contains `"// "`: a target-struct field
line without the inline-comment delimiter raises the unhandled list-index
error instead of defaulting both flags to false. -/
theorem c10_missing_comment (sn : String) (accs : List GenerateJs.Account) (line : String)
    (h1 : pyStartsWith "//" (pyStrip line) = false)
    (h2 : pyStartsWith "\x7d" (pyStrip line) = false)
    (h3 : ¬ "// ".toList <:+: line.toList) :
    GenerateJs.parse_ia_line sn ⟨true, accs⟩ line = .error .indexError := by
  have hln : ¬ "// ".toList <:+: (pyDrop 4 (pyStrip line)).toList := fun h =>
    h3 (h.trans (iaLine_substring line))
  have hs : pySplitS "// " (pyDrop 4 (pyStrip line)) = [pyDrop 4 (pyStrip line)] :=
    pySplitS_single _ _ (by decide) hln
  simp [GenerateJs.parse_ia_line, h1, h2, hs, except_error_bind]

/-- C10 (witness): the theorem applied to the concrete field line
`    pub sender: AccountInfo,` inside `WithdrawAccounts`, plus the
corresponding whole-run failure on `c10Lines`. -/
theorem c10_missing_comment_witness :
    (pyStartsWith "//" (pyStrip "    pub sender: AccountInfo,") = false ∧
     pyStartsWith "\x7d" (pyStrip "    pub sender: AccountInfo,") = false ∧
     ¬ "// ".toList <:+: "    pub sender: AccountInfo,".toList) ∧
    GenerateJs.parse_ia_line "WithdrawAccounts" ⟨true, []⟩ "    pub sender: AccountInfo," =
      .error .indexError ∧
    GenerateJs.parse_instruction_accounts c10Lines "WithdrawAccounts" = .error .indexError :=
  ⟨⟨by decide, by decide, by decide⟩,
   c10_missing_comment "WithdrawAccounts" [] "    pub sender: AccountInfo,"
     (by decide) (by decide) (by decide),
   by decide⟩

/-- The unresolved token is always part of each renderer error message
(`msg = prefix ++ token ++ suffix`). -/
theorem token_substring_append (A t B : String) : t.toList <:+: (A ++ t ++ B).toList := by
  show t.data <:+: (A ++ t ++ B).data
  rw [String.data_append, String.data_append]
  exact List.infix_append _ _ _

/-- The unresolved token is a suffix of a message of the form
`prefix ++ token`. -/
theorem token_substring_append_left (A t : String) : t.toList <:+: (A ++ t).toList := by
  show t.data <:+: (A ++ t).data
  rw [String.data_append]
  exact (List.suffix_append _ _).isInfix

/-- C3: field declaration order is preserved in every rendered artifact:
the fixed-layout and tagged-schema bodies emit one entry per field, named
in declaration order; the decode-function and interface bodies emit
declarations for exactly the non-padding (non-`u32`) fields, again in
declaration order (their name sequence is a sublist of the declaration
order). -/
theorem c3_field_order (reg : Registry)
    (rL : String → Except GenJsApi.GenErr (List GenJsApi.LayoutEntry))
    (rS : String → Except GenJsApi.GenErr (List SchemaEntry))
    (rD : String → Except GenJsApi.GenErr (List GenJsApi.DecodeEntry))
    (rI : String → Except GenJsApi.GenErr (List GenJsApi.InterfaceEntry))
    (fields : List Field)
    (hL : ∀ f ∈ fields, (GenJsApi.lookup_layout f.2 f.1).isSome = true)
    (hS : ∀ f ∈ fields, (GenerateJs.lookup_layout f.2 f.1).isSome = true) :
    (∃ l, GenJsApi.generate_buflayout_body reg rL fields = .ok l ∧
      l.map GenJsApi.LayoutEntry.fieldName = fields.map Prod.fst) ∧
    (∃ l, GenerateJs.generate_schema_body reg rS fields = .ok l ∧
      l.map SchemaEntry.fieldName = fields.map Prod.fst) ∧
    (∃ l, GenJsApi.generate_decoder_body reg rD fields = .ok l ∧
      l.filterMap GenJsApi.DecodeEntry.fieldName =
        (fields.filter (fun f => f.2 ≠ "u32")).map Prod.fst ∧
      List.Sublist (l.filterMap GenJsApi.DecodeEntry.fieldName) (fields.map Prod.fst)) ∧
    (∃ l, GenJsApi.generate_interface_body reg rI fields = .ok l ∧
      l.filterMap GenJsApi.InterfaceEntry.fieldName =
        (fields.filter (fun f => f.2 ≠ "u32")).map Prod.fst ∧
      List.Sublist (l.filterMap GenJsApi.InterfaceEntry.fieldName) (fields.map Prod.fst)) := by
  refine ⟨GenJsApi.buflayout_body_prim reg rL fields hL,
          GenerateJs.schema_body_prim reg rS fields hS, ?_, ?_⟩
  · obtain ⟨l, hok, hnames⟩ := GenJsApi.decoder_body_prim reg rD fields hL
    refine ⟨l, hok, hnames, ?_⟩
    rw [hnames]
    exact (List.filter_sublist fields).map Prod.fst
  · obtain ⟨l, hok, hnames⟩ := GenJsApi.interface_body_prim reg rI fields hL
    refine ⟨l, hok, hnames, ?_⟩
    rw [hnames]
    exact (List.filter_sublist fields).map Prod.fst

/-- C3 (witness): the order-preservation theorem applied to the concrete
field list `a: u64, p: u32, c: bool` with an empty registry. -/
theorem c3_field_order_witness :
    ((∀ f ∈ [("a", "u64"), ("p", "u32"), ("c", "bool")],
        (GenJsApi.lookup_layout (Prod.snd f) (Prod.fst f)).isSome = true) ∧
     (∀ f ∈ [("a", "u64"), ("p", "u32"), ("c", "bool")],
        (GenerateJs.lookup_layout (Prod.snd f) (Prod.fst f)).isSome = true)) ∧
    ((∃ l, GenJsApi.generate_buflayout_body [] (fun _ => .error .keyError)
        [("a", "u64"), ("p", "u32"), ("c", "bool")] = .ok l ∧
      l.map GenJsApi.LayoutEntry.fieldName =
        [("a", "u64"), ("p", "u32"), ("c", "bool")].map Prod.fst) ∧
    (∃ l, GenerateJs.generate_schema_body [] (fun _ => .error .keyError)
        [("a", "u64"), ("p", "u32"), ("c", "bool")] = .ok l ∧
      l.map SchemaEntry.fieldName =
        [("a", "u64"), ("p", "u32"), ("c", "bool")].map Prod.fst) ∧
    (∃ l, GenJsApi.generate_decoder_body [] (fun _ => .error .keyError)
        [("a", "u64"), ("p", "u32"), ("c", "bool")] = .ok l ∧
      l.filterMap GenJsApi.DecodeEntry.fieldName =
        ([("a", "u64"), ("p", "u32"), ("c", "bool")].filter
          (fun f => Prod.snd f ≠ "u32")).map Prod.fst ∧
      List.Sublist (l.filterMap GenJsApi.DecodeEntry.fieldName)
        ([("a", "u64"), ("p", "u32"), ("c", "bool")].map Prod.fst)) ∧
    (∃ l, GenJsApi.generate_interface_body [] (fun _ => .error .keyError)
        [("a", "u64"), ("p", "u32"), ("c", "bool")] = .ok l ∧
      l.filterMap GenJsApi.InterfaceEntry.fieldName =
        ([("a", "u64"), ("p", "u32"), ("c", "bool")].filter
          (fun f => Prod.snd f ≠ "u32")).map Prod.fst ∧
      List.Sublist (l.filterMap GenJsApi.InterfaceEntry.fieldName)
        ([("a", "u64"), ("p", "u32"), ("c", "bool")].map Prod.fst))) :=
  ⟨⟨by decide, by decide⟩,
   c3_field_order [] (fun _ => .error .keyError) (fun _ => .error .keyError)
     (fun _ => .error .keyError) (fun _ => .error .keyError)
     [("a", "u64"), ("p", "u32"), ("c", "bool")] (by decide) (by decide)⟩

/-- C5: a `u32` field contributes exactly the nameless padding fragment to
the decode-function and interface outputs (so it never appears as a field
of the decoded object or a member of the interface), while it contributes a
4-byte entry to both the fixed-layout and the tagged-schema output, at its
declaration position. -/
theorem c5_u32_padding (reg : Registry)
    (rL : String → Except GenJsApi.GenErr (List GenJsApi.LayoutEntry))
    (rS : String → Except GenJsApi.GenErr (List SchemaEntry))
    (rD : String → Except GenJsApi.GenErr (List GenJsApi.DecodeEntry))
    (rI : String → Except GenJsApi.GenErr (List GenJsApi.InterfaceEntry))
    (n : String) :
    (∀ pre post la lb, GenJsApi.generate_decoder_body reg rD pre = .ok la →
       GenJsApi.generate_decoder_body reg rD post = .ok lb →
       GenJsApi.generate_decoder_body reg rD (pre ++ (n, "u32") :: post) =
         .ok (la ++ GenJsApi.DecodeEntry.pad :: lb) ∧
       (la ++ GenJsApi.DecodeEntry.pad :: lb).filterMap GenJsApi.DecodeEntry.fieldName =
         la.filterMap GenJsApi.DecodeEntry.fieldName ++
           lb.filterMap GenJsApi.DecodeEntry.fieldName) ∧
    (∀ pre post la lb, GenJsApi.generate_interface_body reg rI pre = .ok la →
       GenJsApi.generate_interface_body reg rI post = .ok lb →
       GenJsApi.generate_interface_body reg rI (pre ++ (n, "u32") :: post) =
         .ok (la ++ GenJsApi.InterfaceEntry.pad :: lb) ∧
       (la ++ GenJsApi.InterfaceEntry.pad :: lb).filterMap GenJsApi.InterfaceEntry.fieldName =
         la.filterMap GenJsApi.InterfaceEntry.fieldName ++
           lb.filterMap GenJsApi.InterfaceEntry.fieldName) ∧
    (∀ pre post la lb, GenJsApi.generate_buflayout_body reg rL pre = .ok la →
       GenJsApi.generate_buflayout_body reg rL post = .ok lb →
       GenJsApi.generate_buflayout_body reg rL (pre ++ (n, "u32") :: post) =
         .ok (la ++ GenJsApi.LayoutEntry.blob 4 n :: lb) ∧
       (GenJsApi.LayoutEntry.blob 4 n).width = 4) ∧
    (∀ pre post la lb, GenerateJs.generate_schema_body reg rS pre = .ok la →
       GenerateJs.generate_schema_body reg rS post = .ok lb →
       GenerateJs.generate_schema_body reg rS (pre ++ (n, "u32") :: post) =
         .ok (la ++ SchemaEntry.prim "u32" n :: lb) ∧
       (SchemaEntry.prim "u32" n).width = some 4) := by
  refine ⟨?_, ?_, ?_, ?_⟩
  · intro pre post la lb h1 h2
    have hu : GenJsApi.generate_decoder_body reg rD ((n, "u32") :: post) =
        .ok (GenJsApi.DecodeEntry.pad :: lb) := by
      simp only [GenJsApi.generate_decoder_body]
      rw [show GenJsApi.lookup_decoder "u32" n = some GenJsApi.DecodeEntry.pad from rfl]
      rw [h2]
      rfl
    refine ⟨GenJsApi.decoder_body_append reg rD pre ((n, "u32") :: post) la
        (GenJsApi.DecodeEntry.pad :: lb) h1 hu, ?_⟩
    simp [List.filterMap_append, GenJsApi.DecodeEntry.fieldName]
  · intro pre post la lb h1 h2
    have hu : GenJsApi.generate_interface_body reg rI ((n, "u32") :: post) =
        .ok (GenJsApi.InterfaceEntry.pad :: lb) := by
      simp only [GenJsApi.generate_interface_body]
      rw [show GenJsApi.lookup_interface "u32" n = some GenJsApi.InterfaceEntry.pad from rfl]
      rw [h2]
      rfl
    refine ⟨GenJsApi.interface_body_append reg rI pre ((n, "u32") :: post) la
        (GenJsApi.InterfaceEntry.pad :: lb) h1 hu, ?_⟩
    simp [List.filterMap_append, GenJsApi.InterfaceEntry.fieldName]
  · intro pre post la lb h1 h2
    have hu : GenJsApi.generate_buflayout_body reg rL ((n, "u32") :: post) =
        .ok (GenJsApi.LayoutEntry.blob 4 n :: lb) := by
      simp only [GenJsApi.generate_buflayout_body]
      rw [show GenJsApi.lookup_layout "u32" n = some (GenJsApi.LayoutEntry.blob 4 n) from rfl]
      rw [h2]
      rfl
    exact ⟨GenJsApi.buflayout_body_append reg rL pre ((n, "u32") :: post) la
        (GenJsApi.LayoutEntry.blob 4 n :: lb) h1 hu, rfl⟩
  · intro pre post la lb h1 h2
    have hu : GenerateJs.generate_schema_body reg rS ((n, "u32") :: post) =
        .ok (SchemaEntry.prim "u32" n :: lb) := by
      simp only [GenerateJs.generate_schema_body]
      rw [show GenerateJs.lookup_layout "u32" n = some (SchemaEntry.prim "u32" n) from rfl]
      rw [h2]
      rfl
    exact ⟨GenerateJs.schema_body_append reg rS pre ((n, "u32") :: post) la
        (SchemaEntry.prim "u32" n :: lb) h1 hu, rfl⟩

/-- C5 (witness): the padding theorem applied to `a: u64, p: u32, c: bool`
with the `u32` field in the middle. -/
theorem c5_u32_padding_witness :
    (GenJsApi.generate_decoder_body [] (fun _ => .error .keyError)
        ([("a", "u64")] ++ ("p", "u32") :: [("c", "bool")]) =
      .ok ([GenJsApi.DecodeEntry.bn "a"] ++
        GenJsApi.DecodeEntry.pad :: [GenJsApi.DecodeEntry.boolean "c"]) ∧
     ([GenJsApi.DecodeEntry.bn "a"] ++
        GenJsApi.DecodeEntry.pad :: [GenJsApi.DecodeEntry.boolean "c"]).filterMap
          GenJsApi.DecodeEntry.fieldName =
       [GenJsApi.DecodeEntry.bn "a"].filterMap GenJsApi.DecodeEntry.fieldName ++
         [GenJsApi.DecodeEntry.boolean "c"].filterMap GenJsApi.DecodeEntry.fieldName) ∧
    (GenJsApi.generate_interface_body [] (fun _ => .error .keyError)
        ([("a", "u64")] ++ ("p", "u32") :: [("c", "bool")]) =
      .ok ([GenJsApi.InterfaceEntry.bnType "a"] ++
        GenJsApi.InterfaceEntry.pad :: [GenJsApi.InterfaceEntry.booleanType "c"]) ∧
     ([GenJsApi.InterfaceEntry.bnType "a"] ++
        GenJsApi.InterfaceEntry.pad :: [GenJsApi.InterfaceEntry.booleanType "c"]).filterMap
          GenJsApi.InterfaceEntry.fieldName =
       [GenJsApi.InterfaceEntry.bnType "a"].filterMap GenJsApi.InterfaceEntry.fieldName ++
         [GenJsApi.InterfaceEntry.booleanType "c"].filterMap
           GenJsApi.InterfaceEntry.fieldName) ∧
    (GenJsApi.generate_buflayout_body [] (fun _ => .error .keyError)
        ([("a", "u64")] ++ ("p", "u32") :: [("c", "bool")]) =
      .ok ([GenJsApi.LayoutEntry.blob 8 "a"] ++
        GenJsApi.LayoutEntry.blob 4 "p" :: [GenJsApi.LayoutEntry.blob 1 "c"]) ∧
     (GenJsApi.LayoutEntry.blob 4 "p").width = 4) ∧
    (GenerateJs.generate_schema_body [] (fun _ => .error .keyError)
        ([("a", "u64")] ++ ("p", "u32") :: [("c", "bool")]) =
      .ok ([SchemaEntry.prim "u64" "a"] ++
        SchemaEntry.prim "u32" "p" :: [SchemaEntry.prim "u8" "c"]) ∧
     (SchemaEntry.prim "u32" "p").width = some 4) :=
  ⟨(c5_u32_padding [] (fun _ => .error .keyError) (fun _ => .error .keyError)
      (fun _ => .error .keyError) (fun _ => .error .keyError) "p").1
    [("a", "u64")] [("c", "bool")] _ _ (by decide) (by decide),
   (c5_u32_padding [] (fun _ => .error .keyError) (fun _ => .error .keyError)
      (fun _ => .error .keyError) (fun _ => .error .keyError) "p").2.1
    [("a", "u64")] [("c", "bool")] _ _ (by decide) (by decide),
   (c5_u32_padding [] (fun _ => .error .keyError) (fun _ => .error .keyError)
      (fun _ => .error .keyError) (fun _ => .error .keyError) "p").2.2.1
    [("a", "u64")] [("c", "bool")] _ _ (by decide) (by decide),
   (c5_u32_padding [] (fun _ => .error .keyError) (fun _ => .error .keyError)
      (fun _ => .error .keyError) (fun _ => .error .keyError) "p").2.2.2
    [("a", "u64")] [("c", "bool")] _ _ (by decide) (by decide)⟩

/-- C6 (counterexample): rendering `Vesting { weight: f128 }` aborts, but
the raised error message names only the token `f128`: it contains neither
the field name `weight` nor the struct name `Vesting`. -/
theorem c6_counterexample :
    GenJsApi.generate_buflayout f128Reg 1 "Vesting" =
      .error (.unknown "Unknown buffer layout for f128)") ∧
    ¬ ("weight".toList <:+: "Unknown buffer layout for f128)".toList) ∧
    ¬ ("Vesting".toList <:+: "Unknown buffer layout for f128)".toList) := by
  refine ⟨by decide, by decide, by decide⟩

/-- C6 (amended): when a field type token resolves neither to a primitive
mapping nor to a registry key, every renderer fails fatally before emitting
a descriptor for the field, and each raised error names the unresolved
token (the token is a substring of the message) — but only the token, not
the field or the enclosing struct. -/
theorem c6_unknown_token (reg : Registry)
    (rL : String → Except GenJsApi.GenErr (List GenJsApi.LayoutEntry))
    (rS : String → Except GenJsApi.GenErr (List SchemaEntry))
    (rD : String → Except GenJsApi.GenErr (List GenJsApi.DecodeEntry))
    (rI : String → Except GenJsApi.GenErr (List GenJsApi.InterfaceEntry))
    (n t : String) (rest : List Field)
    (h1 : GenJsApi.lookup_layout t n = none)
    (h2 : GenJsApi.lookup_decoder t n = none)
    (h3 : GenJsApi.lookup_interface t n = none)
    (h4 : GenerateJs.lookup_layout t n = none)
    (h5 : regFind reg t = none) :
    (GenJsApi.generate_buflayout_body reg rL ((n, t) :: rest) =
       .error (.unknown ("Unknown buffer layout for " ++ t ++ ")")) ∧
     t.toList <:+: ("Unknown buffer layout for " ++ t ++ ")").toList) ∧
    (GenJsApi.generate_decoder_body reg rD ((n, t) :: rest) =
       .error (.unknown ("Unknown decoder for " ++ t)) ∧
     t.toList <:+: ("Unknown decoder for " ++ t).toList) ∧
    (GenJsApi.generate_interface_body reg rI ((n, t) :: rest) =
       .error (.unknown ("Unknown interface type for " ++ t)) ∧
     t.toList <:+: ("Unknown interface type for " ++ t).toList) ∧
    (GenerateJs.generate_schema_body reg rS ((n, t) :: rest) =
       .error (.unknown ("Unknown schema for " ++ t)) ∧
     t.toList <:+: ("Unknown schema for " ++ t).toList) := by
  refine ⟨⟨?_, token_substring_append _ _ _⟩, ⟨?_, token_substring_append_left _ _⟩,
          ⟨?_, token_substring_append_left _ _⟩, ⟨?_, token_substring_append_left _ _⟩⟩
  · simp [GenJsApi.generate_buflayout_body, h1, h5]
  · simp [GenJsApi.generate_decoder_body, h2, h5]
  · simp [GenJsApi.generate_interface_body, h3, h5]
  · simp [GenerateJs.generate_schema_body, h4, h5]

/-- C6 (witness): the amended theorem applied to `weight: f128` in the
registry holding only `Vesting`. -/
theorem c6_unknown_token_witness :
    (GenJsApi.lookup_layout "f128" "weight" = none ∧
     GenJsApi.lookup_decoder "f128" "weight" = none ∧
     GenJsApi.lookup_interface "f128" "weight" = none ∧
     GenerateJs.lookup_layout "f128" "weight" = none ∧
     regFind f128Reg "f128" = none) ∧
    ((GenJsApi.generate_buflayout_body f128Reg (fun _ => .error .keyError)
        [("weight", "f128")] =
       .error (.unknown ("Unknown buffer layout for " ++ "f128" ++ ")")) ∧
      "f128".toList <:+: ("Unknown buffer layout for " ++ "f128" ++ ")").toList) ∧
     (GenJsApi.generate_decoder_body f128Reg (fun _ => .error .keyError)
        [("weight", "f128")] =
       .error (.unknown ("Unknown decoder for " ++ "f128")) ∧
      "f128".toList <:+: ("Unknown decoder for " ++ "f128").toList) ∧
     (GenJsApi.generate_interface_body f128Reg (fun _ => .error .keyError)
        [("weight", "f128")] =
       .error (.unknown ("Unknown interface type for " ++ "f128")) ∧
      "f128".toList <:+: ("Unknown interface type for " ++ "f128").toList) ∧
     (GenerateJs.generate_schema_body f128Reg (fun _ => .error .keyError)
        [("weight", "f128")] =
       .error (.unknown ("Unknown schema for " ++ "f128")) ∧
      "f128".toList <:+: ("Unknown schema for " ++ "f128").toList)) :=
  ⟨⟨by decide, by decide, by decide, by decide, by decide⟩,
   c6_unknown_token f128Reg (fun _ => .error .keyError) (fun _ => .error .keyError)
     (fun _ => .error .keyError) (fun _ => .error .keyError) "weight" "f128" []
     (by decide) (by decide) (by decide) (by decide) (by decide)⟩

/-- C2 (counterexample): a `u8`-typed field is rejected by the fixed-layout,
decode-function and interface renderers of `gen_js_api.py` and by the
`make_idl.py` schema table, so u8 is not accepted by every renderer. -/
theorem c2_counterexample :
    GenJsApi.generate_buflayout u8Reg 1 "S" =
      .error (.unknown "Unknown buffer layout for u8)") ∧
    GenJsApi.generate_decoder u8Reg 1 "S" =
      .error (.unknown "Unknown decoder for u8") ∧
    GenJsApi.generate_interface u8Reg 1 "S" =
      .error (.unknown "Unknown interface type for u8") ∧
    MakeIdl.lookup_layout "u8" "x" = none ∧
    GenJsApi.lookup_layout "[u8; 64]" "x" = none := by
  refine ⟨by decide, by decide, by decide, by decide, by decide⟩

/-- C2 (amended): the tokens recognized by more than one renderer (`u64`,
`u32`, `Pubkey`, `bool`) carry one consistent byte width each (8, 4, 32, 1)
across the fixed-layout table and both tagged-schema tables; `u8` and the
fixed 64-byte array tokens are accepted only by the `generate_javascript.py`
schema table (as 1 byte and 64 bytes respectively) and are rejected by the
`gen_js_api.py` renderers and by `make_idl.py`. -/
theorem c2_width_consistency (n : String) :
    ((GenJsApi.lookup_layout "u64" n).map GenJsApi.LayoutEntry.width = some 8 ∧
     (GenerateJs.lookup_layout "u64" n).bind SchemaEntry.width = some 8 ∧
     (MakeIdl.lookup_layout "u64" n).bind SchemaEntry.width = some 8) ∧
    ((GenJsApi.lookup_layout "u32" n).map GenJsApi.LayoutEntry.width = some 4 ∧
     (GenerateJs.lookup_layout "u32" n).bind SchemaEntry.width = some 4 ∧
     (MakeIdl.lookup_layout "u32" n).bind SchemaEntry.width = some 4) ∧
    ((GenJsApi.lookup_layout "Pubkey" n).map GenJsApi.LayoutEntry.width = some 32 ∧
     (GenerateJs.lookup_layout "Pubkey" n).bind SchemaEntry.width = some 32 ∧
     (MakeIdl.lookup_layout "Pubkey" n).bind SchemaEntry.width = some 32) ∧
    ((GenJsApi.lookup_layout "bool" n).map GenJsApi.LayoutEntry.width = some 1 ∧
     (GenerateJs.lookup_layout "bool" n).bind SchemaEntry.width = some 1 ∧
     (MakeIdl.lookup_layout "bool" n).bind SchemaEntry.width = some 1) ∧
    (GenJsApi.lookup_layout "u8" n = none ∧
     GenJsApi.lookup_decoder "u8" n = none ∧
     GenJsApi.lookup_interface "u8" n = none ∧
     MakeIdl.lookup_layout "u8" n = none ∧
     (GenerateJs.lookup_layout "u8" n).bind SchemaEntry.width = some 1) ∧
    (GenJsApi.lookup_layout "[u8; 64]" n = none ∧
     MakeIdl.lookup_layout "[u8; 64]" n = none ∧
     (GenerateJs.lookup_layout "[u8; 64]" n).bind SchemaEntry.width = some 64 ∧
     (GenerateJs.lookup_layout "[u8; MAX_NAME_SIZE_B]" n).bind SchemaEntry.width =
       some 64) := by
  refine ⟨⟨rfl, rfl, rfl⟩, ⟨rfl, rfl, rfl⟩, ⟨rfl, rfl, rfl⟩, ⟨rfl, rfl, rfl⟩,
          ⟨rfl, rfl, rfl, rfl, rfl⟩, ⟨rfl, rfl, rfl, rfl⟩⟩

/-- A successful registry lookup is a membership witness. -/
theorem regFind_mem (reg : Registry) (s : String) (v : List Field)
    (h : regFind reg s = some v) : (s, v) ∈ reg := by
  induction reg with
  | nil => exact Option.noConfusion h
  | cons p rest ih =>
    obtain ⟨k, w⟩ := p
    by_cases hk : k = s
    · subst hk
      rw [show regFind ((k, w) :: rest) k = some w from by simp [regFind]] at h
      injection h with h
      subst h
      exact List.mem_cons_self _ _
    · rw [show regFind ((k, w) :: rest) s = regFind rest s from by simp [regFind, hk]] at h
      exact List.mem_cons_of_mem _ (ih h)

/-- On a ranked (acyclic), closed registry, the fixed-layout renderer
succeeds with fuel above the struct rank and emits only primitive-derived
entries. -/
theorem GenJsApi.buflayout_total (reg : Registry) (rank : String → Nat)
    (hr : RankOk reg rank) (hc : ClosedLayout reg) :
    ∀ fuel s fields, regFind reg s = some fields → rank s < fuel →
    ∃ l, GenJsApi.generate_buflayout reg fuel s = .ok l ∧
      ∀ e ∈ l, ∃ t n, GenJsApi.lookup_layout t n = some e := by
  intro fuel
  induction fuel with
  | zero => intro s fields _ h; exact absurd h (Nat.not_lt_zero _)
  | succ fuel ih =>
    intro s fields hs hrank
    have hmem := regFind_mem reg s fields hs
    have hfields : ∀ f ∈ fields, (GenJsApi.lookup_layout f.2 f.1).isSome = true ∨
        ((regFind reg f.2).isSome = true ∧ rank f.2 < fuel) := by
      intro f hf
      rcases hc (s, fields) hmem f hf with hp | hreg
      · exact Or.inl hp
      · refine Or.inr ⟨hreg, ?_⟩
        have h1 : rank f.2 < rank s := hr (s, fields) hmem f hf hreg
        omega
    have inner : ∀ fs, (∀ f ∈ fs, (GenJsApi.lookup_layout f.2 f.1).isSome = true ∨
        ((regFind reg f.2).isSome = true ∧ rank f.2 < fuel)) →
        ∃ l, GenJsApi.generate_buflayout_body reg
            (GenJsApi.generate_buflayout reg fuel) fs = .ok l ∧
          ∀ e ∈ l, ∃ t n, GenJsApi.lookup_layout t n = some e := by
      intro fs
      induction fs with
      | nil => intro _; exact ⟨[], rfl, by simp⟩
      | cons f rest ihl =>
        intro hall
        obtain ⟨n, t⟩ := f
        obtain ⟨lrest, hlrest, hflat⟩ := ihl (fun f hf => hall f (List.mem_cons_of_mem _ hf))
        cases hlook : GenJsApi.lookup_layout t n with
        | some e =>
          have hstep : GenJsApi.generate_buflayout_body reg
              (GenJsApi.generate_buflayout reg fuel) ((n, t) :: rest) =
              Except.map (fun x => e :: x) (GenJsApi.generate_buflayout_body reg
                (GenJsApi.generate_buflayout reg fuel) rest) := by
            simp only [GenJsApi.generate_buflayout_body]
            rw [hlook]
          refine ⟨e :: lrest, ?_, ?_⟩
          · rw [hstep, hlrest]
            rfl
          · intro e2 he2
            rcases List.mem_cons.mp he2 with rfl | hmem2
            · exact ⟨t, n, hlook⟩
            · exact hflat e2 hmem2
        | none =>
          rcases hall (n, t) (List.mem_cons_self _ _) with hp | ⟨hregd, hrt⟩
          · rw [hlook] at hp
            simp at hp
          · obtain ⟨nf, hnf⟩ := Option.isSome_iff_exists.mp hregd
            obtain ⟨linner, hinner, hinnerflat⟩ := ih t nf hnf hrt
            have hstep : GenJsApi.generate_buflayout_body reg
                (GenJsApi.generate_buflayout reg fuel) ((n, t) :: rest) =
                (if (regFind reg t).isSome = true then
                  GenJsApi.generate_buflayout reg fuel t >>= fun inner =>
                    GenJsApi.generate_buflayout_body reg
                      (GenJsApi.generate_buflayout reg fuel) rest >>= fun tail =>
                    Except.ok (inner ++ tail)
                else Except.error
                  (.unknown ("Unknown buffer layout for " ++ t ++ ")"))) := by
              simp only [GenJsApi.generate_buflayout_body]
              rw [hlook]
            refine ⟨linner ++ lrest, ?_, ?_⟩
            · rw [hstep, if_pos hregd, hinner]
              show GenJsApi.generate_buflayout_body reg
                  (GenJsApi.generate_buflayout reg fuel) rest >>= (fun tail =>
                  Except.ok (linner ++ tail)) = Except.ok (linner ++ lrest)
              rw [hlrest]
              rfl
            · intro e2 he2
              rcases List.mem_append.mp he2 with hmem2 | hmem2
              · exact hinnerflat e2 hmem2
              · exact hflat e2 hmem2
    have hw : GenJsApi.generate_buflayout reg (fuel + 1) s =
        GenJsApi.generate_buflayout_body reg (GenJsApi.generate_buflayout reg fuel) fields := by
      simp only [GenJsApi.generate_buflayout]
      rw [hs]
    rw [hw]
    exact inner fields hfields

/-- On a ranked (acyclic), closed registry, the tagged-schema renderer of
`generate_javascript.py` succeeds with fuel above the struct rank and emits
only primitive-derived entries. -/
theorem GenerateJs.schema_total (reg : Registry) (rank : String → Nat)
    (hr : RankOk reg rank) (hc : ClosedSchema reg) :
    ∀ fuel s fields, regFind reg s = some fields → rank s < fuel →
    ∃ l, GenerateJs.generate_schema reg fuel s = .ok l ∧
      ∀ e ∈ l, ∃ t n, GenerateJs.lookup_layout t n = some e := by
  intro fuel
  induction fuel with
  | zero => intro s fields _ h; exact absurd h (Nat.not_lt_zero _)
  | succ fuel ih =>
    intro s fields hs hrank
    have hmem := regFind_mem reg s fields hs
    have hfields : ∀ f ∈ fields, (GenerateJs.lookup_layout f.2 f.1).isSome = true ∨
        ((regFind reg f.2).isSome = true ∧ rank f.2 < fuel) := by
      intro f hf
      rcases hc (s, fields) hmem f hf with hp | hreg
      · exact Or.inl hp
      · refine Or.inr ⟨hreg, ?_⟩
        have h1 : rank f.2 < rank s := hr (s, fields) hmem f hf hreg
        omega
    have inner : ∀ fs, (∀ f ∈ fs, (GenerateJs.lookup_layout f.2 f.1).isSome = true ∨
        ((regFind reg f.2).isSome = true ∧ rank f.2 < fuel)) →
        ∃ l, GenerateJs.generate_schema_body reg
            (GenerateJs.generate_schema reg fuel) fs = .ok l ∧
          ∀ e ∈ l, ∃ t n, GenerateJs.lookup_layout t n = some e := by
      intro fs
      induction fs with
      | nil => intro _; exact ⟨[], rfl, by simp⟩
      | cons f rest ihl =>
        intro hall
        obtain ⟨n, t⟩ := f
        obtain ⟨lrest, hlrest, hflat⟩ := ihl (fun f hf => hall f (List.mem_cons_of_mem _ hf))
        cases hlook : GenerateJs.lookup_layout t n with
        | some e =>
          have hstep : GenerateJs.generate_schema_body reg
              (GenerateJs.generate_schema reg fuel) ((n, t) :: rest) =
              Except.map (fun x => e :: x) (GenerateJs.generate_schema_body reg
                (GenerateJs.generate_schema reg fuel) rest) := by
            simp only [GenerateJs.generate_schema_body]
            rw [hlook]
          refine ⟨e :: lrest, ?_, ?_⟩
          · rw [hstep, hlrest]
            rfl
          · intro e2 he2
            rcases List.mem_cons.mp he2 with rfl | hmem2
            · exact ⟨t, n, hlook⟩
            · exact hflat e2 hmem2
        | none =>
          rcases hall (n, t) (List.mem_cons_self _ _) with hp | ⟨hregd, hrt⟩
          · rw [hlook] at hp
            simp at hp
          · obtain ⟨nf, hnf⟩ := Option.isSome_iff_exists.mp hregd
            obtain ⟨linner, hinner, hinnerflat⟩ := ih t nf hnf hrt
            have hstep : GenerateJs.generate_schema_body reg
                (GenerateJs.generate_schema reg fuel) ((n, t) :: rest) =
                (if (regFind reg t).isSome = true then
                  GenerateJs.generate_schema reg fuel t >>= fun inner =>
                    GenerateJs.generate_schema_body reg
                      (GenerateJs.generate_schema reg fuel) rest >>= fun tail =>
                    Except.ok (inner ++ tail)
                else Except.error (.unknown ("Unknown schema for " ++ t))) := by
              simp only [GenerateJs.generate_schema_body]
              rw [hlook]
            refine ⟨linner ++ lrest, ?_, ?_⟩
            · rw [hstep, if_pos hregd, hinner]
              show GenerateJs.generate_schema_body reg
                  (GenerateJs.generate_schema reg fuel) rest >>= (fun tail =>
                  Except.ok (linner ++ tail)) = Except.ok (linner ++ lrest)
              rw [hlrest]
              rfl
            · intro e2 he2
              rcases List.mem_append.mp he2 with hmem2 | hmem2
              · exact hinnerflat e2 hmem2
              · exact hflat e2 hmem2
    have hw : GenerateJs.generate_schema reg (fuel + 1) s =
        GenerateJs.generate_schema_body reg (GenerateJs.generate_schema reg fuel) fields := by
      simp only [GenerateJs.generate_schema]
      rw [hs]
    rw [hw]
    exact inner fields hfields

/-- C4: on a registry whose struct-reference graph is acyclic (witnessed by
a decreasing rank) and closed (every token primitive or registered), the
recursive expansion of every registered struct terminates — some fuel makes
the fixed-layout and tagged-schema renderers return a flat output sequence —
and every emitted entry comes from a primitive-token lookup, so no
struct-type reference appears in the output. -/
theorem c4_acyclic_expansion (reg : Registry) (rank : String → Nat)
    (hr : RankOk reg rank) (hcL : ClosedLayout reg) (hcS : ClosedSchema reg)
    (s : String) (hs : (regFind reg s).isSome = true) :
    ∃ fuel,
      (∃ l, GenJsApi.generate_buflayout reg fuel s = .ok l ∧
        ∀ e ∈ l, ∃ t n, GenJsApi.lookup_layout t n = some e) ∧
      (∃ l, GenerateJs.generate_schema reg fuel s = .ok l ∧
        ∀ e ∈ l, ∃ t n, GenerateJs.lookup_layout t n = some e) := by
  obtain ⟨fields, hfind⟩ := Option.isSome_iff_exists.mp hs
  exact ⟨rank s + 1,
    GenJsApi.buflayout_total reg rank hr hcL (rank s + 1) s fields hfind
      (Nat.lt_succ_self _),
    GenerateJs.schema_total reg rank hr hcS (rank s + 1) s fields hfind
      (Nat.lt_succ_self _)⟩

/-- C4 (witness): the expansion theorem applied to the two-level registry
`Inner { y: bool }`, `Outer { x: u64, inn: Inner }` with rank
`Outer ↦ 1, _ ↦ 0`. -/
theorem c4_acyclic_expansion_witness :
    (RankOk nestedReg (fun s => if s = "Outer" then 1 else 0) ∧
     ClosedLayout nestedReg ∧ ClosedSchema nestedReg ∧
     (regFind nestedReg "Outer").isSome = true) ∧
    (∃ fuel,
      (∃ l, GenJsApi.generate_buflayout nestedReg fuel "Outer" = .ok l ∧
        ∀ e ∈ l, ∃ t n, GenJsApi.lookup_layout t n = some e) ∧
      (∃ l, GenerateJs.generate_schema nestedReg fuel "Outer" = .ok l ∧
        ∀ e ∈ l, ∃ t n, GenerateJs.lookup_layout t n = some e)) :=
  ⟨⟨by decide, by decide, by decide, by decide⟩,
   c4_acyclic_expansion nestedReg (fun s => if s = "Outer" then 1 else 0)
     (by decide) (by decide) (by decide) "Outer" (by decide)⟩

end TimelockGen
